import Mathlib

/-!
Shallow embedding of the `observe` package (observe.go) of the gizmo
repository.  All functions read the process environment, modelled as a
total map `String → String` where an unset variable yields `""`, exactly
as `os.Getenv` does.  External collaborators — credential discovery,
monitored-resource autodetection, the Stackdriver exporter factory, the
trace/metrics registries and the profiler — are modelled by a `World`
record, and the instrumented variants (suffix `T`) additionally return
the list of external calls made, in order.
-/

namespace Observe

/-- The Stackdriver options record built by `getSDOpts` (observe.go lines
117-131): project id, possibly-absent monitored resource, the discovered
credentials attached to both the monitoring and the trace client options,
the error callback, and the default trace attributes map. -/
structure SDOptions (R C F : Type) where
  projectID : String
  monitoredResource : Option R
  monitoringCredentials : C
  traceCredentials : C
  onError : F
  defaultTraceAttributes : List (String × String)
  deriving Repr, DecidableEq

/-- One external call made by the package: credential discovery
(`google.FindDefaultCredentials`), resource autodetection
(`monitoredresource.Autodetect`), the exporter factory
(`stackdriver.NewExporter`), registration with the trace registry
(`trace.RegisterExporter`), registration with the metrics-view registry
(`view.RegisterExporter`), and the profiler (`profiler.Start`).
Registration events carry the (possibly nil) exporter registered; the
profiler event carries the config it is started with. -/
inductive Event (E : Type) where
  | findDefaultCredentials
  | autodetect
  | newExporter
  | registerTraceExporter (exp : Option E)
  | registerViewExporter (exp : Option E)
  | profilerStart (projectID service version : String)
  deriving Repr, DecidableEq

/-- The ambient world: the process environment and the behaviour of the
four external collaborators.  `autodetect = none` models
`monitoredresource.Autodetect()` returning nil, `findDefaultCredentials =
none` models `google.FindDefaultCredentials` returning an error,
`newExporter` is the `stackdriver.NewExporter` factory and
`profilerStart` is the error (if any) returned by `profiler.Start`. -/
structure World (R C E F : Type) where
  env : String → String
  autodetect : Option R
  findDefaultCredentials : Option C
  newExporter : SDOptions R C F → Except String E
  profilerStart : Option String

/-- `errors.Wrap` from github.com/pkg/errors: returns nil when the cause
is nil, otherwise an error whose message is the wrapping text, a colon
and the cause. -/
def errorsWrap : Option String → String → Option String
  | none, _ => none
  | some cause, msg => some (msg ++ ": " ++ cause)

/-- `GoogleProjectID` (observe.go line 67): reads GOOGLE_CLOUD_PROJECT. -/
def GoogleProjectID (env : String → String) : String :=
  env "GOOGLE_CLOUD_PROJECT"

/-- `IsGAE` (observe.go line 73): true iff GAE_DEPLOYMENT_ID is non-empty. -/
def IsGAE (env : String → String) : Bool :=
  env "GAE_DEPLOYMENT_ID" != ""

/-- `GetGAEInfo` (observe.go line 79): `(GoogleProjectID(), GAE_SERVICE,
GAE_VERSION)`. -/
def GetGAEInfo (env : String → String) : String × String × String :=
  (GoogleProjectID env, env "GAE_SERVICE", env "GAE_VERSION")

/-- `GetServiceInfo` (observe.go line 91): GAE info when on GAE,
otherwise `(GoogleProjectID(), SERVICE_NAME, SERVICE_VERSION)`. -/
def GetServiceInfo (env : String → String) : String × String × String :=
  if IsGAE env then GetGAEInfo env
  else (GoogleProjectID env, env "SERVICE_NAME", env "SERVICE_VERSION")

/-- `SkipObserve` (observe.go line 143): true iff GIZMO_SKIP_OBSERVE is
non-empty. -/
def SkipObserve (env : String → String) : Bool :=
  env "GIZMO_SKIP_OBSERVE" != ""

/-- `IsGCPEnabled` (observe.go line 136) with its call trace: `IsGAE() ||
monitoredresource.Autodetect() != nil`; the `||` of Go short-circuits, so
autodetection is only attempted when not on GAE. -/
def IsGCPEnabledT (w : World R C E F) : Bool × List (Event E) :=
  if IsGAE w.env then (true, [])
  else (w.autodetect.isSome, [Event.autodetect])

/-- `IsGCPEnabled`, result only. -/
def IsGCPEnabled (w : World R C E F) : Bool :=
  (IsGCPEnabledT w).fst

/-- `getSDOpts` (observe.go line 100) with its call trace: discover
credentials (on failure return nil at once); `canExport` starts as
`IsGAE()`; autodetect a monitored resource, and when one is present
retain it and set `canExport`; return nil when not exportable, otherwise
the populated options. -/
def getSDOptsT (w : World R C E F) (projectID service version : String)
    (onErr : F) : Option (SDOptions R C F) × List (Event E) :=
  match w.findDefaultCredentials with
  | none => (none, [Event.findDefaultCredentials])
  | some creds =>
    let mr : Option R := w.autodetect
    let canExport := IsGAE w.env || w.autodetect.isSome
    if !canExport then
      (none, [Event.findDefaultCredentials, Event.autodetect])
    else
      (some { projectID := projectID
              monitoredResource := mr
              monitoringCredentials := creds
              traceCredentials := creds
              onError := onErr
              defaultTraceAttributes :=
                [("service", service), ("version", version)] },
       [Event.findDefaultCredentials, Event.autodetect])

/-- `NewStackdriverExporter` (observe.go line 55) with its call trace:
compute `GetServiceInfo`, build the options; when the options are nil
return `(nil, nil)`, otherwise call the `stackdriver.NewExporter`
factory.  The first component mirrors the Go result pair
`(*stackdriver.Exporter, error)`: a possibly-nil exporter and a
possibly-nil error. -/
def NewStackdriverExporterT (w : World R C E F) (projectID : String)
    (onErr : F) : (Option E × Option String) × List (Event E) :=
  let si := GetServiceInfo w.env
  let r := getSDOptsT w projectID si.snd.fst si.snd.snd onErr
  match r.fst with
  | none => ((none, none), r.snd)
  | some opts =>
    match w.newExporter opts with
    | Except.ok e => ((some e, none), r.snd ++ [Event.newExporter])
    | Except.error msg => ((none, some msg), r.snd ++ [Event.newExporter])

/-- `RegisterAndObserveGCP` (observe.go line 26) with its call trace:
skip (success) when opted out; fail when not GCP-enabled; build the
exporter, wrapping a factory error; register the exporter (nil or not)
with the trace and metrics-view registries; start the profiler with
`(projectID, service, serviceVersion)` and wrap its error (nil stays
nil). -/
def RegisterAndObserveGCPT (w : World R C E F) (onError : F) :
    Option String × List (Event E) :=
  if SkipObserve w.env then (none, [])
  else
    let gcp := IsGCPEnabledT w
    if !gcp.fst then
      (some "environment is not GCP enabled, no observe tools will be run",
       gcp.snd)
    else
      let si := GetServiceInfo w.env
      let r := NewStackdriverExporterT w si.fst onError
      match r.fst.snd with
      | some e =>
        (some ("unable to initiate error tracing exporter: " ++ e),
         gcp.snd ++ r.snd)
      | none =>
        (errorsWrap w.profilerStart "unable to initiate profiling client",
         gcp.snd ++ r.snd ++
           [Event.registerTraceExporter r.fst.fst,
            Event.registerViewExporter r.fst.fst,
            Event.profilerStart si.fst si.snd.fst si.snd.snd])

/-! Concrete fixtures used by the witness and counterexample theorems. -/

/-- Environment with the opt-out variable set and everything else too,
so a skipped run demonstrably ignores all of it. -/
def envSkip : String → String
  | "GIZMO_SKIP_OBSERVE" => "1"
  | "GAE_DEPLOYMENT_ID" => "d1"
  | "GOOGLE_CLOUD_PROJECT" => "proj"
  | _ => ""

/-- Environment on the managed runtime with the generic variables also
set, exercising the precedence branch of `GetServiceInfo`. -/
def envBoth : String → String
  | "GAE_DEPLOYMENT_ID" => "d1"
  | "GAE_SERVICE" => "gaesvc"
  | "GAE_VERSION" => "gaever"
  | "SERVICE_NAME" => "gensvc"
  | "SERVICE_VERSION" => "genver"
  | "GOOGLE_CLOUD_PROJECT" => "proj"
  | _ => ""

/-- Environment off the managed runtime with only the generic variables
set. -/
def envGeneric : String → String
  | "SERVICE_NAME" => "gensvc"
  | "SERVICE_VERSION" => "genver"
  | "GOOGLE_CLOUD_PROJECT" => "proj"
  | _ => ""

/-- Environment where only the generic account variable is set; every
managed-runtime-specific variable is empty. -/
def envAcct : String → String
  | "GOOGLE_CLOUD_PROJECT" => "generic-account"
  | _ => ""

/-- Environment where nothing at all is set. -/
def envEmpty : String → String := fun _ => ""

/-- An exporter factory that always succeeds. -/
def okFactory : SDOptions String Unit Unit → Except String Unit :=
  fun _ => Except.ok ()

/-- World with the opt-out set and every collaborator available. -/
def wSkip : World String Unit Unit Unit :=
  { env := envSkip, autodetect := some "gce-instance"
    findDefaultCredentials := some (), newExporter := okFactory
    profilerStart := none }

/-- World with nothing set and no detectable resource. -/
def wNotGCP : World String Unit Unit Unit :=
  { env := envEmpty, autodetect := none, findDefaultCredentials := some ()
    newExporter := okFactory, profilerStart := none }

/-- World off the managed runtime with a detected resource and working
credentials. -/
def wGeneric : World String Unit Unit Unit :=
  { env := envGeneric, autodetect := some "gce-instance"
    findDefaultCredentials := some (), newExporter := okFactory
    profilerStart := none }

/-- World on the managed runtime, resource detected, but credential
discovery failing. -/
def wCredFail : World String Unit Unit Unit :=
  { env := envBoth, autodetect := some "gce-instance"
    findDefaultCredentials := none, newExporter := okFactory
    profilerStart := none }

/-- World on the managed runtime where everything works except the
profiler. -/
def wProfFail : World String Unit Unit Unit :=
  { env := envBoth, autodetect := some "gce-instance"
    findDefaultCredentials := some (), newExporter := okFactory
    profilerStart := some "profiler exploded" }

/-- Recognises a profiler-start event. -/
def isProfilerStartEv : Event E → Bool
  | Event.profilerStart _ _ _ => true
  | _ => false

/-- Recognises a registration event (trace or metrics-view registry). -/
def isRegisterEv : Event E → Bool
  | Event.registerTraceExporter _ => true
  | Event.registerViewExporter _ => true
  | _ => false

/-- Recognises a credential-discovery event. -/
def isFindCredentialsEv : Event E → Bool
  | Event.findDefaultCredentials => true
  | _ => false

/-- Recognises a resource-autodetection event. -/
def isAutodetectEv : Event E → Bool
  | Event.autodetect => true
  | _ => false

/-- Recognises an exporter-factory event. -/
def isNewExporterEv : Event E → Bool
  | Event.newExporter => true
  | _ => false

/-- Recognises a trace-registry registration event. -/
def isTraceRegEv : Event E → Bool
  | Event.registerTraceExporter _ => true
  | _ => false

/-- Recognises a metrics-view-registry registration event. -/
def isViewRegEv : Event E → Bool
  | Event.registerViewExporter _ => true
  | _ => false

/-- The options value `getSDOpts` builds in the `wGeneric` world. -/
def oGeneric : SDOptions String Unit Unit :=
  { projectID := "proj", monitoredResource := some "gce-instance"
    monitoringCredentials := (), traceCredentials := (), onError := ()
    defaultTraceAttributes := [("service", "gensvc"), ("version", "genver")] }

/-- True of events that are neither registrations nor profiler starts. -/
def noRegProf : Event E → Bool :=
  fun ev => !isProfilerStartEv ev && !isRegisterEv ev

/-- The trace of `IsGCPEnabled` is empty (on GAE) or a single
autodetection call. -/
theorem isGCPEnabledT_snd_cases (w : World R C E F) :
    (IsGCPEnabledT w).snd = ([] : List (Event E)) ∨
    (IsGCPEnabledT w).snd = [Event.autodetect] := by
  unfold IsGCPEnabledT
  split
  · left; rfl
  · right; rfl

/-- The trace of `getSDOpts` is the failed credential discovery alone,
or credential discovery followed by autodetection. -/
theorem getSDOptsT_snd_eq (w : World R C E F) (pid svc ver : String)
    (f : F) :
    (getSDOptsT w pid svc ver f).snd =
      (match w.findDefaultCredentials with
       | none => [Event.findDefaultCredentials]
       | some _ => [Event.findDefaultCredentials, Event.autodetect]) := by
  unfold getSDOptsT
  cases w.findDefaultCredentials with
  | none => rfl
  | some c =>
    simp only []
    split
    · rfl
    · rfl

/-- When `getSDOpts` produces options, credential discovery succeeded. -/
theorem getSDOptsT_some_creds (w : World R C E F) (pid svc ver : String)
    (f : F) (o : SDOptions R C F)
    (h : (getSDOptsT w pid svc ver f).fst = some o) :
    ∃ c, w.findDefaultCredentials = some c := by
  unfold getSDOptsT at h
  cases hc : w.findDefaultCredentials with
  | none => rw [hc] at h; simp at h
  | some c => exact ⟨c, rfl⟩

/-- The trace of `NewStackdriverExporter` takes one of three shapes:
credential discovery alone, discovery then autodetection, or discovery,
autodetection and one factory call. -/
theorem newStackdriverExporterT_snd_cases (w : World R C E F)
    (pid : String) (f : F) :
    (NewStackdriverExporterT w pid f).snd =
      [Event.findDefaultCredentials] ∨
    (NewStackdriverExporterT w pid f).snd =
      [Event.findDefaultCredentials, Event.autodetect] ∨
    (NewStackdriverExporterT w pid f).snd =
      [Event.findDefaultCredentials, Event.autodetect,
       Event.newExporter] := by
  unfold NewStackdriverExporterT
  simp only []
  split
  · rename_i heq
    rw [getSDOptsT_snd_eq]
    cases w.findDefaultCredentials
    · left; rfl
    · right; left; rfl
  · rename_i o heq
    obtain ⟨c, hc⟩ := getSDOptsT_some_creds w pid _ _ f o heq
    split
    · right; right
      simp only [getSDOptsT_snd_eq, hc]
      rfl
    · right; right
      simp only [getSDOptsT_snd_eq, hc]
      rfl

/-- Exhaustive characterisation of `RegisterAndObserveGCP`: it either
skips, fails the platform check, stops at a factory error, or reaches
the end registering the exporter with both registries and starting the
profiler. -/
theorem registerAndObserveGCPT_cases (w : World R C E F) (f : F) :
    RegisterAndObserveGCPT w f = (none, []) ∨
    RegisterAndObserveGCPT w f =
      (some "environment is not GCP enabled, no observe tools will be run",
       (IsGCPEnabledT w).snd) ∨
    (∃ e,
      (NewStackdriverExporterT w (GetServiceInfo w.env).fst f).fst.snd =
        some e ∧
      RegisterAndObserveGCPT w f =
        (some ("unable to initiate error tracing exporter: " ++ e),
         (IsGCPEnabledT w).snd ++
           (NewStackdriverExporterT w (GetServiceInfo w.env).fst f).snd)) ∨
    ((NewStackdriverExporterT w (GetServiceInfo w.env).fst f).fst.snd =
        none ∧
      RegisterAndObserveGCPT w f =
        (errorsWrap w.profilerStart "unable to initiate profiling client",
         (IsGCPEnabledT w).snd ++
           (NewStackdriverExporterT w (GetServiceInfo w.env).fst f).snd ++
           [Event.registerTraceExporter
              (NewStackdriverExporterT w (GetServiceInfo w.env).fst f).fst.fst,
            Event.registerViewExporter
              (NewStackdriverExporterT w (GetServiceInfo w.env).fst f).fst.fst,
            Event.profilerStart (GetServiceInfo w.env).fst
              (GetServiceInfo w.env).snd.fst
              (GetServiceInfo w.env).snd.snd])) := by
  unfold RegisterAndObserveGCPT
  by_cases hs : SkipObserve w.env = true
  · left; simp [hs]
  · by_cases hen : (IsGCPEnabledT w).fst = true
    · cases hne :
        (NewStackdriverExporterT w (GetServiceInfo w.env).fst f).fst.snd with
      | some e =>
        right; right; left
        exact ⟨e, rfl, by simp [hs, hen, hne]⟩
      | none =>
        right; right; right
        exact ⟨rfl, by simp [hs, hen, hne]⟩
    · right; left
      simp [hs, hen]

/-- C1: in every world whose environment has the opt-out variable
GIZMO_SKIP_OBSERVE non-empty, RegisterAndObserveGCP returns nil
immediately and its call trace is empty: no exporter factory, no
registry registration, no profiler, no credential discovery and no
resource autodetection. -/
theorem registerAndObserveGCP_skip (w : World R C E F) (f : F)
    (h : SkipObserve w.env = true) :
    RegisterAndObserveGCPT w f = (none, ([] : List (Event E))) := by
  simp [RegisterAndObserveGCPT, h]

/-- Witness for C1 at a concrete opted-out world. -/
theorem registerAndObserveGCP_skip_witness :
    SkipObserve wSkip.env = true ∧
    RegisterAndObserveGCPT wSkip () = (none, []) :=
  ⟨by decide, registerAndObserveGCP_skip wSkip () (by decide)⟩

/-- C2: in every world where the opt-out is unset, GAE_DEPLOYMENT_ID is
empty and autodetection yields no descriptor, IsGCPEnabled is false and
RegisterAndObserveGCP returns the platform-unsupported error with only
the autodetection call in its trace: no exporter is constructed and the
profiler is not started. -/
theorem registerAndObserveGCP_notGCP (w : World R C E F) (f : F)
    (hskip : w.env "GIZMO_SKIP_OBSERVE" = "")
    (hgae : w.env "GAE_DEPLOYMENT_ID" = "")
    (hmr : w.autodetect = none) :
    IsGCPEnabled w = false ∧
    RegisterAndObserveGCPT w f =
      (some "environment is not GCP enabled, no observe tools will be run",
       [Event.autodetect]) := by
  have hg : IsGAE w.env = false := by simp [IsGAE, hgae]
  have hs : SkipObserve w.env = false := by simp [SkipObserve, hskip]
  constructor
  · simp [IsGCPEnabled, IsGCPEnabledT, hg, hmr]
  · simp [RegisterAndObserveGCPT, IsGCPEnabledT, hs, hg, hmr]

/-- Witness for C2 at a concrete empty-environment world. -/
theorem registerAndObserveGCP_notGCP_witness :
    IsGCPEnabled wNotGCP = false ∧
    RegisterAndObserveGCPT wNotGCP () =
      (some "environment is not GCP enabled, no observe tools will be run",
       [Event.autodetect]) :=
  registerAndObserveGCP_notGCP wNotGCP () rfl rfl rfl

/-- C3: GetServiceInfo is a two-way branch on GAE_DEPLOYMENT_ID: when it
is non-empty the managed-runtime values are returned, for any values of
the generic variables, and when it is empty the result is
(GoogleProjectID, SERVICE_NAME, SERVICE_VERSION). -/
theorem getServiceInfo_branch (env : String → String) :
    (env "GAE_DEPLOYMENT_ID" ≠ "" →
      GetServiceInfo env =
        (env "GOOGLE_CLOUD_PROJECT", env "GAE_SERVICE", env "GAE_VERSION")) ∧
    (env "GAE_DEPLOYMENT_ID" = "" →
      GetServiceInfo env =
        (env "GOOGLE_CLOUD_PROJECT", env "SERVICE_NAME",
         env "SERVICE_VERSION")) := by
  constructor
  · intro h
    simp [GetServiceInfo, IsGAE, GetGAEInfo, GoogleProjectID, h]
  · intro h
    simp [GetServiceInfo, IsGAE, GoogleProjectID, h]

/-- Witness for C3: the managed-runtime branch with the generic
variables also set, and the generic branch. -/
theorem getServiceInfo_branch_witness :
    GetServiceInfo envBoth = ("proj", "gaesvc", "gaever") ∧
    GetServiceInfo envGeneric = ("proj", "gensvc", "genver") :=
  ⟨(getServiceInfo_branch envBoth).1 (by decide),
   (getServiceInfo_branch envGeneric).2 (by decide)⟩

/-- C4: whenever credential discovery fails, NewStackdriverExporter
returns (nil, nil) — in any world, so regardless of the resource
descriptor or the managed runtime — and the only external call in its
trace is the failed credential discovery: the factory is never
invoked. -/
theorem newStackdriverExporter_credFail (w : World R C E F)
    (pid : String) (f : F) (h : w.findDefaultCredentials = none) :
    NewStackdriverExporterT w pid f =
      ((none, none), [Event.findDefaultCredentials]) := by
  simp [NewStackdriverExporterT, getSDOptsT, h]

/-- Witness for C4 at a world that is on the managed runtime and has a
detected resource, yet fails credential discovery. -/
theorem newStackdriverExporter_credFail_witness :
    wCredFail.findDefaultCredentials = none ∧
    IsGAE wCredFail.env = true ∧ wCredFail.autodetect.isSome = true ∧
    NewStackdriverExporterT wCredFail "proj" () =
      ((none, none), [Event.findDefaultCredentials]) :=
  ⟨rfl, by decide, by decide,
   newStackdriverExporter_credFail wCredFail "proj" () rfl⟩

/-- C5: getSDOpts returns options only when export is viable — a some
result implies the managed runtime is detected or a descriptor is
present — and the options always retain exactly the autodetected
descriptor. -/
theorem getSDOpts_viable (w : World R C E F) (pid svc ver : String)
    (f : F) (o : SDOptions R C F)
    (h : (getSDOptsT w pid svc ver f).fst = some o) :
    (IsGAE w.env = true ∨ w.autodetect.isSome = true) ∧
    o.monitoredResource = w.autodetect := by
  unfold getSDOptsT at h
  cases hc : w.findDefaultCredentials with
  | none => rw [hc] at h; simp at h
  | some c =>
    rw [hc] at h
    simp only [] at h
    split at h
    · simp at h
    · rename_i hcond
      simp only [Bool.not_eq_true, Bool.not_eq_false] at hcond
      simp only [Option.some.injEq] at h
      subst h
      have hor : (IsGAE w.env || w.autodetect.isSome) = true := by
        revert hcond; cases (IsGAE w.env || w.autodetect.isSome) <;> simp
      exact ⟨(Bool.or_eq_true _ _).mp hor, rfl⟩

/-- Witness for C5 at the generic-environment world. -/
theorem getSDOpts_viable_witness :
    (IsGAE wGeneric.env = true ∨ wGeneric.autodetect.isSome = true) ∧
    oGeneric.monitoredResource = wGeneric.autodetect :=
  getSDOpts_viable wGeneric "proj" "gensvc" "genver" () oGeneric (by decide)

/-- C10 counterexample: with every managed-runtime-specific variable
empty and only the generic account-identifier variable
GOOGLE_CLOUD_PROJECT set, GetGAEInfo returns that generic value as its
projectID component — the projectID does come from the generic
account-identifier variable, not from a managed-runtime-specific one. -/
theorem getGAEInfo_projectID_cex :
    envAcct "GAE_DEPLOYMENT_ID" = "" ∧ envAcct "GAE_SERVICE" = "" ∧
    envAcct "GAE_VERSION" = "" ∧
    envAcct "GOOGLE_CLOUD_PROJECT" = "generic-account" ∧
    GetGAEInfo envAcct = ("generic-account", "", "") := by decide

/-- C10 amended: GetGAEInfo returns GoogleProjectID (the generic
GOOGLE_CLOUD_PROJECT account variable) as projectID, and the
managed-runtime-specific GAE_SERVICE and GAE_VERSION as service and
version. -/
theorem getGAEInfo_reads (env : String → String) :
    GetGAEInfo env =
      (GoogleProjectID env, env "GAE_SERVICE", env "GAE_VERSION") := rfl

/-- The trace of `IsGCPEnabled` contains no registration and no
profiler-start event. -/
theorem gcp_snd_clean (w : World R C E F) :
    (IsGCPEnabledT w).snd.all (noRegProf (E := E)) = true ∧
    (IsGCPEnabledT w).snd.any (isProfilerStartEv (E := E)) = false := by
  rcases isGCPEnabledT_snd_cases w with h | h <;> rw [h] <;> exact ⟨rfl, rfl⟩

/-- The trace of `NewStackdriverExporter` contains no registration and
no profiler-start event. -/
theorem sd_snd_clean (w : World R C E F) (pid : String) (f : F) :
    (NewStackdriverExporterT w pid f).snd.all noRegProf = true ∧
    (NewStackdriverExporterT w pid f).snd.any isProfilerStartEv = false := by
  rcases newStackdriverExporterT_snd_cases w pid f with h | h | h <;>
    rw [h] <;> exact ⟨rfl, rfl⟩

/-- C6: off the managed runtime, with a detected resource descriptor and
successful credential discovery, the options NewStackdriverExporter
hands the factory are fully populated: the supplied project id, the
retained descriptor, the discovered credentials on both client options,
the supplied error callback, and default trace attributes exactly
(service, SERVICE_NAME), (version, SERVICE_VERSION) from the generic
variables; the factory is then actually invoked. -/
theorem newStackdriverExporter_genericAttrs (w : World R C E F)
    (pid : String) (f : F) (r : R) (c : C)
    (hgae : w.env "GAE_DEPLOYMENT_ID" = "")
    (hmr : w.autodetect = some r)
    (hcreds : w.findDefaultCredentials = some c) :
    (getSDOptsT w pid (GetServiceInfo w.env).snd.fst
        (GetServiceInfo w.env).snd.snd f).fst =
      some { projectID := pid, monitoredResource := some r
             monitoringCredentials := c, traceCredentials := c
             onError := f
             defaultTraceAttributes :=
               [("service", w.env "SERVICE_NAME"),
                ("version", w.env "SERVICE_VERSION")] } ∧
    (NewStackdriverExporterT w pid f).snd =
      [Event.findDefaultCredentials, Event.autodetect,
       Event.newExporter] := by
  have hg : IsGAE w.env = false := by simp [IsGAE, hgae]
  have hsi : GetServiceInfo w.env =
      (GoogleProjectID w.env, w.env "SERVICE_NAME",
       w.env "SERVICE_VERSION") := by
    simp [GetServiceInfo, hg]
  constructor
  · rw [hsi]
    simp [getSDOptsT, hcreds, hg, hmr]
  · simp only [NewStackdriverExporterT, getSDOptsT, hcreds, hg, hmr, hsi,
      Option.isSome_some, Bool.false_or, Bool.not_true, Bool.false_eq_true,
      if_false]
    split <;> rfl

/-- Witness for C6 at the generic-environment world. -/
theorem newStackdriverExporter_genericAttrs_witness :
    (getSDOptsT wGeneric "proj" (GetServiceInfo wGeneric.env).snd.fst
        (GetServiceInfo wGeneric.env).snd.snd ()).fst =
      some { projectID := "proj", monitoredResource := some "gce-instance"
             monitoringCredentials := (), traceCredentials := ()
             onError := ()
             defaultTraceAttributes :=
               [("service", wGeneric.env "SERVICE_NAME"),
                ("version", wGeneric.env "SERVICE_VERSION")] } ∧
    (NewStackdriverExporterT wGeneric "proj" ()).snd =
      [Event.findDefaultCredentials, Event.autodetect,
       Event.newExporter] :=
  newStackdriverExporter_genericAttrs wGeneric "proj" () "gce-instance" ()
    rfl rfl rfl

/-- C7: in every run of RegisterAndObserveGCP whose trace starts the
profiler, the trace ends with the trace-registry registration, the
metrics-view-registry registration and then the profiler start, with no
registration or profiler event earlier; and when the profiler fails the
wrapped profiler error is returned while those registrations stay in the
trace — no rollback. -/
theorem profiler_after_registration (w : World R C E F) (f : F) :
    ((RegisterAndObserveGCPT w f).snd.any isProfilerStartEv = true →
      ∃ pre exp,
        (RegisterAndObserveGCPT w f).snd =
          pre ++ [Event.registerTraceExporter exp,
                  Event.registerViewExporter exp,
                  Event.profilerStart (GetServiceInfo w.env).fst
                    (GetServiceInfo w.env).snd.fst
                    (GetServiceInfo w.env).snd.snd] ∧
        pre.all noRegProf = true) ∧
    (∀ perr, w.profilerStart = some perr →
      (RegisterAndObserveGCPT w f).snd.any isProfilerStartEv = true →
      (RegisterAndObserveGCPT w f).fst =
        some ("unable to initiate profiling client: " ++ perr)) := by
  rcases registerAndObserveGCPT_cases w f with h | h | ⟨e, hne, h⟩ | ⟨hne, h⟩
  · constructor
    · intro hps
      rw [h] at hps
      simp at hps
    · intro perr hp hps
      rw [h] at hps
      simp at hps
  · constructor
    · intro hps
      rw [h] at hps
      simp [(gcp_snd_clean w).2] at hps
    · intro perr hp hps
      rw [h] at hps
      simp [(gcp_snd_clean w).2] at hps
  · constructor
    · intro hps
      rw [h] at hps
      simp [List.any_append, (gcp_snd_clean w).2,
        (sd_snd_clean w (GetServiceInfo w.env).fst f).2] at hps
    · intro perr hp hps
      rw [h] at hps
      simp [List.any_append, (gcp_snd_clean w).2,
        (sd_snd_clean w (GetServiceInfo w.env).fst f).2] at hps
  · constructor
    · intro hps
      refine ⟨(IsGCPEnabledT w).snd ++
          (NewStackdriverExporterT w (GetServiceInfo w.env).fst f).snd,
        (NewStackdriverExporterT w (GetServiceInfo w.env).fst f).fst.fst,
        ?_, ?_⟩
      · rw [h]
      · simp [List.all_append, (gcp_snd_clean w).1,
          (sd_snd_clean w (GetServiceInfo w.env).fst f).1]
    · intro perr hp hps
      rw [h]
      simp [errorsWrap, hp]

/-- Witness for C7 at the world whose profiler fails: both
registrations appear in the trace right before the profiler start, and
the wrapped profiler error is returned. -/
theorem profiler_after_registration_witness :
    (∃ pre exp,
      (RegisterAndObserveGCPT wProfFail ()).snd =
        pre ++ [Event.registerTraceExporter exp,
                Event.registerViewExporter exp,
                Event.profilerStart (GetServiceInfo wProfFail.env).fst
                  (GetServiceInfo wProfFail.env).snd.fst
                  (GetServiceInfo wProfFail.env).snd.snd] ∧
      pre.all noRegProf = true) ∧
    (RegisterAndObserveGCPT wProfFail ()).fst =
      some ("unable to initiate profiling client: " ++ "profiler exploded") :=
  ⟨(profiler_after_registration wProfFail ()).1 (by decide),
   (profiler_after_registration wProfFail ()).2 "profiler exploded" rfl
     (by decide)⟩

/-- C8: with the opt-out unset, the platform check passing but
credential discovery failing, RegisterAndObserveGCP neither skips nor
fails early: NewStackdriverExporter yields (nil, nil), the nil exporter
is registered with both the trace and the metrics-view registries, the
profiler is still started, and the overall result is the wrapped
profiler outcome. -/
theorem registerAndObserve_credFail_registers (w : World R C E F) (f : F)
    (hskip : SkipObserve w.env = false)
    (hen : IsGCPEnabled w = true)
    (hcreds : w.findDefaultCredentials = none) :
    (NewStackdriverExporterT w (GetServiceInfo w.env).fst f).fst =
      (none, none) ∧
    RegisterAndObserveGCPT w f =
      (errorsWrap w.profilerStart "unable to initiate profiling client",
       (IsGCPEnabledT w).snd ++
         [Event.findDefaultCredentials,
          Event.registerTraceExporter none,
          Event.registerViewExporter none,
          Event.profilerStart (GetServiceInfo w.env).fst
            (GetServiceInfo w.env).snd.fst
            (GetServiceInfo w.env).snd.snd]) := by
  have hen' : (IsGCPEnabledT w).fst = true := hen
  constructor
  · simp [NewStackdriverExporterT, getSDOptsT, hcreds]
  · simp [RegisterAndObserveGCPT, hskip, hen', NewStackdriverExporterT,
      getSDOptsT, hcreds, List.append_assoc]

/-- Witness for C8 at the credential-failure world on the managed
runtime. -/
theorem registerAndObserve_credFail_registers_witness :
    (NewStackdriverExporterT wCredFail
        (GetServiceInfo wCredFail.env).fst ()).fst = (none, none) ∧
    RegisterAndObserveGCPT wCredFail () =
      (errorsWrap wCredFail.profilerStart
         "unable to initiate profiling client",
       (IsGCPEnabledT wCredFail).snd ++
         [Event.findDefaultCredentials,
          Event.registerTraceExporter none,
          Event.registerViewExporter none,
          Event.profilerStart (GetServiceInfo wCredFail.env).fst
            (GetServiceInfo wCredFail.env).snd.fst
            (GetServiceInfo wCredFail.env).snd.snd]) :=
  registerAndObserve_credFail_registers wCredFail () rfl rfl rfl

/-- C9 counterexample: in the concrete world `wGeneric` (opt-out unset,
not on the managed runtime, resource detected, credentials found,
factory and profiler succeeding) resource autodetection is attempted
twice during one invocation of RegisterAndObserveGCP — once inside
IsGCPEnabled and once inside getSDOpts — not exactly once. -/
theorem registerAndObserve_autodetect_twice_cex :
    (RegisterAndObserveGCPT wGeneric ()).snd.countP isAutodetectEv = 2 ∧
    ¬((RegisterAndObserveGCPT wGeneric ()).snd.countP isAutodetectEv
        = 1) := by decide

/-- C9 amended: no external call is retried: per invocation of
RegisterAndObserveGCP, credential discovery, exporter construction, each
registry registration and the profiler start are attempted at most once,
and resource autodetection at most twice (once in the IsGCPEnabled check
and once in getSDOpts). -/
theorem registerAndObserve_no_retries (w : World R C E F) (f : F) :
    (RegisterAndObserveGCPT w f).snd.countP isFindCredentialsEv ≤ 1 ∧
    (RegisterAndObserveGCPT w f).snd.countP isAutodetectEv ≤ 2 ∧
    (RegisterAndObserveGCPT w f).snd.countP isNewExporterEv ≤ 1 ∧
    (RegisterAndObserveGCPT w f).snd.countP isTraceRegEv ≤ 1 ∧
    (RegisterAndObserveGCPT w f).snd.countP isViewRegEv ≤ 1 ∧
    (RegisterAndObserveGCPT w f).snd.countP isProfilerStartEv ≤ 1 := by
  rcases isGCPEnabledT_snd_cases w with hg | hg <;>
  rcases newStackdriverExporterT_snd_cases w (GetServiceInfo w.env).fst f
    with hsd | hsd | hsd <;>
  rcases registerAndObserveGCPT_cases w f with h | h | ⟨e, hne, h⟩ |
    ⟨hne, h⟩ <;>
  rw [h] <;>
  simp [hg, hsd, List.countP_append, List.countP_cons, List.countP_nil,
    isFindCredentialsEv, isAutodetectEv, isNewExporterEv, isTraceRegEv,
    isViewRegEv, isProfilerStartEv]

end Observe
